import Mathlib

/-!
Verification of the speech/audio core of the Pepper_Robot_Ai repository.

The development shallowly embeds the relevant parts of
`src/hybrid_tts_handler.py`, `src/pepper_interface.py` and `src/main.py`:

* pure checks (audio validity, error-message classification, emotion maps)
  become Lean functions on lists of bytes / characters;
* the stateful fallback chain `HybridTTSHandler.speak` becomes a function
  from an explicit handler state and an environment (what each synthesis
  backend would do if invoked) to a result, a new state, and a list of
  observable effects (files created and removed, backends invoked);
* `PepperRobot.play_audio_file`, the LED priority state machine and the
  SSH transport become functions on explicit state records, again
  returning effect traces where ordering matters.

Definitions are translated from the Python source; the few definitions
that instead follow the specification's words (for refinement comparisons)
say so in their doc comment.
-/

/-! ## Byte buffers and the audio validity check -/

/-- A file's content: a list of byte values. -/
abbrev Bytes := List Nat

/-- Embedding of `HybridTTSHandler._valid_audio` (hybrid_tts_handler.py
lines 318-323): `os.path.exists(path) and os.path.getsize(path) > 0`,
with `OSError` (and a missing file) yielding `False`.  The argument is the
content of the file at the checked path, `none` when the path does not
exist or stat raises `OSError`. -/
def valid_audio (file : Option Bytes) : Bool :=
  match file with
  | none => false
  | some b => decide (0 < b.length)

/-- Modelled from the spec: a correct RIFF/WAVE container signature,
bytes 0-3 `RIFF` and bytes 8-11 `WAVE`. -/
def hasRiffWaveHeader (b : Bytes) : Bool :=
  decide (b.take 4 = [0x52, 0x49, 0x46, 0x46] ∧ (b.drop 8).take 4 = [0x57, 0x41, 0x56, 0x45])

/-- Modelled from the spec: a correct MP3 container signature, either an
ID3 tag (`ID3` prefix) or MPEG frame-sync bytes (0xFF followed by a byte
with the top three bits set). -/
def hasMp3Signature (b : Bytes) : Bool :=
  match b with
  | b0 :: b1 :: b2 :: _ =>
      decide (b0 = 0x49 ∧ b1 = 0x44 ∧ b2 = 0x33) ||
      decide (b0 = 0xFF ∧ 0xE0 ≤ b1 % 256)
  | _ => false

/-! ## Error-message classification

`_speak_groq` and `_speak_elevenlabs` classify an exception as a
rate-limit / quota condition by substring tests on the lowercased
`str(e)`. -/

/-- Substring test on lists of characters: the needle occurs somewhere in
the haystack. -/
def strHasSub (needle : String) (hay : List Char) : Bool :=
  hay.tails.any (fun t => needle.data.isPrefixOf t)

/-- Embedding of the `except` classifier of `_speak_groq`
(hybrid_tts_handler.py lines 228-235): `err = str(e).lower()` and the
test `"429" in err or "rate limit" in err or "daily" in err`. -/
def groqIsRateLimited (msg : String) : Bool :=
  let err := msg.data.map Char.toLower
  strHasSub ("429") err || strHasSub ("rate limit") err || strHasSub ("daily") err

/-- Embedding of the `except` classifier of `_speak_elevenlabs`
(hybrid_tts_handler.py lines 275-282): the test
`"quota" in err or "limit" in err or "429" in err or "subscription" in err`. -/
def elevenIsLimited (msg : String) : Bool :=
  let err := msg.data.map Char.toLower
  strHasSub ("quota") err || strHasSub ("limit") err ||
    strHasSub ("429") err || strHasSub ("subscription") err

/-! ## Edge TTS emotion mapping (tier 2) -/

/-- Embedding of `_EDGE_EMOTION_MAP` (hybrid_tts_handler.py lines 41-48):
emotion → (rate, pitch) strings. -/
def edgeEmotionMap : List (String × String × String) :=
  [ (("happy"),     ("+15%"), ("+5Hz"))
  , (("excited"),   ("+25%"), ("+10Hz"))
  , (("sad"),       ("-15%"), ("-5Hz"))
  , (("curious"),   ("+5%"),  ("+3Hz"))
  , (("surprised"), ("+10%"), ("+8Hz"))
  , (("neutral"),   ("+0%"),  ("+0Hz")) ]

/-- Lookup in the Edge emotion map (`emotion in _EDGE_EMOTION_MAP`). -/
def edgeMapFind (e : String) : Option (String × String) :=
  match edgeEmotionMap.find? (fun p => p.1 == e) with
  | some p => some p.2
  | none => none

/-- Embedding of the rate/pitch resolution in `_speak_edge_async`
(hybrid_tts_handler.py lines 287-294): if an emotion is given and found
in the map, its `rate` and `pitch` are passed to `Communicate` as they
stand; otherwise the instance defaults `self.edge_rate` and `"+0Hz"`
are used. -/
def edgeResolveRateAndPitch (edge_rate : String) (emotion : Option String) : String × String :=
  match emotion with
  | some e =>
    match edgeMapFind e with
    | some p => (p.1, p.2)
    | none => (edge_rate, ("+0Hz"))
  | none => (edge_rate, ("+0Hz"))

/-- Value of a nonempty string of decimal digits. -/
def decDigits (l : List Char) : Option Nat :=
  if !l.isEmpty && l.all Char.isDigit then
    some (l.foldl (fun a c => a * 10 + (c.toNat - 48)) 0)
  else none

/-- Numeric reading of a signed percentage string such as `"+15%"` or
`"-15%"`: the rate delta it denotes (relative to the voice default, which
is how `edge_tts.Communicate` interprets its `rate` argument). -/
def parseRatePct (s : String) : Option Int :=
  match s.data with
  | '+' :: rest =>
    match rest.getLast? with
    | some c => if c = '%' then (decDigits (rest.dropLast)).map (fun n => (n : Int)) else none
    | none => none
  | '-' :: rest =>
    match rest.getLast? with
    | some c => if c = '%' then (decDigits (rest.dropLast)).map (fun n => -(n : Int)) else none
    | none => none
  | _ => none

/-- Modelled from the spec: additive rate semantics for the
additive-control provider — the emotion's rate delta is added on top of
the configured base rate `edge_rate`, so the configured baseline is
preserved under every emotion. -/
def edgeAdditiveRate (edge_rate : String) (emotion : Option String) : Option Int :=
  match emotion with
  | some e =>
    match edgeMapFind e with
    | some p =>
      match parseRatePct edge_rate, parseRatePct p.1 with
      | some b, some d => some (b + d)
      | _, _ => none
    | none => parseRatePct edge_rate
  | none => parseRatePct edge_rate

/-! ## The tiered fallback selector `HybridTTSHandler.speak` -/

/-- What a synthesis backend does when actually invoked: writes `bytes`
to the tier's output file and returns normally, or raises an exception
with message `msg`. -/
inductive TierOutcome
  | ok (bytes : Bytes)
  | exn (msg : String)
deriving DecidableEq

/-- The environment of one `speak` call: the behaviour each of the three
backends would exhibit if invoked. -/
structure TTSEnv where
  groq : TierOutcome
  edge : TierOutcome
  eleven : TierOutcome
deriving DecidableEq

/-- The mutable handler state (hybrid_tts_handler.py lines 84, 99-100):
the ElevenLabs enable bit fixed at init and the two daily-limit flags. -/
structure TTSState where
  groq_daily_limit_hit : Bool
  elevenlabs_enabled : Bool
  elevenlabs_daily_limit_hit : Bool
deriving DecidableEq

/-- Observable effects of one `speak` call, in program order.  Temp files
are identified by tier number (1 = Groq `.wav`, 2 = Edge `.mp3`,
3 = ElevenLabs `.mp3`).  `scheduleReset` stands for arming any timer or
scheduled callback that would later clear a daily-limit flag; the source
contains no such code, so no branch of the embedding emits it. -/
inductive TTSEffect
  | createTemp (i : Nat)
  | invokeGroq
  | invokeEdge
  | invokeEleven
  | removeFile (i : Nat)
  | scheduleReset
deriving DecidableEq

/-- Embedding of `reset_daily_limits` (hybrid_tts_handler.py lines
201-204): clears both daily-limit flags. -/
def reset_daily_limits (st : TTSState) : TTSState :=
  { st with groq_daily_limit_hit := false, elevenlabs_daily_limit_hit := false }

/-- Tier 3 of `speak` (hybrid_tts_handler.py lines 158-168) together with
the body of `_speak_elevenlabs` (lines 237-282): guarded by
`elevenlabs_enabled and not _elevenlabs_daily_limit_hit`; on a
quota-classified exception the ElevenLabs flag is set; the temp file is
removed unless a valid file is returned.  `acc` is the effect trace
accumulated by the earlier tiers. -/
def speakFrom3 (st : TTSState) (env : TTSEnv) (acc : List TTSEffect) :
    Option Nat × TTSState × List TTSEffect :=
  if st.elevenlabs_enabled && !st.elevenlabs_daily_limit_hit then
    match env.eleven with
    | TierOutcome.ok b =>
      if valid_audio (some b) then
        (some 3, st, acc ++ [TTSEffect.createTemp 3, TTSEffect.invokeEleven])
      else
        (none, st, acc ++ [TTSEffect.createTemp 3, TTSEffect.invokeEleven, TTSEffect.removeFile 3])
    | TierOutcome.exn m =>
      ((none : Option Nat),
       if elevenIsLimited m then { st with elevenlabs_daily_limit_hit := true } else st,
       acc ++ [TTSEffect.createTemp 3, TTSEffect.invokeEleven, TTSEffect.removeFile 3])
  else (none, st, acc)

/-- Tier 2 of `speak` (hybrid_tts_handler.py lines 148-156) together with
`_speak_edge` / `_speak_edge_async`: always attempted when reached (there
is no rate-limit flag for Edge and every exception is handled alike); on
failure or an invalid file, the Edge temp file is removed and tier 3 is
tried. -/
def speakFrom2 (st : TTSState) (env : TTSEnv) (acc : List TTSEffect) :
    Option Nat × TTSState × List TTSEffect :=
  match env.edge with
  | TierOutcome.ok b =>
    if valid_audio (some b) then
      (some 2, st, acc ++ [TTSEffect.createTemp 2, TTSEffect.invokeEdge])
    else
      speakFrom3 st env
        (acc ++ [TTSEffect.createTemp 2, TTSEffect.invokeEdge, TTSEffect.removeFile 2])
  | TierOutcome.exn _ =>
    speakFrom3 st env
      (acc ++ [TTSEffect.createTemp 2, TTSEffect.invokeEdge, TTSEffect.removeFile 2])

/-- Tier 1's temp-file creation (hybrid_tts_handler.py lines 138-140):
a fresh `.wav` temp file is made only when the caller did not pass an
`output_file` of its own. -/
def mkTemp1 (outFileGiven : Bool) : List TTSEffect :=
  if outFileGiven then [] else [TTSEffect.createTemp 1]

/-- Embedding of `HybridTTSHandler.speak` (hybrid_tts_handler.py lines
112-168).  Tier 1: skipped entirely when `_groq_daily_limit_hit` is set
(no temp file is created); otherwise a `.wav` temp file is created when
the caller passed none (`outFileGiven = false`), `_speak_groq` is
invoked, a rate-limit-classified exception sets the Groq flag, and on
failure or an invalid file the file is cleaned up before falling through
to tier 2.  Returns the chosen tier's file, the new flag state and the
effect trace. -/
def speak (st : TTSState) (env : TTSEnv) (outFileGiven : Bool) :
    Option Nat × TTSState × List TTSEffect :=
  if st.groq_daily_limit_hit then
    speakFrom2 st env []
  else
    match env.groq with
    | TierOutcome.ok b =>
      if valid_audio (some b) then
        (some 1, st, mkTemp1 outFileGiven ++ [TTSEffect.invokeGroq])
      else
        speakFrom2 st env
          (mkTemp1 outFileGiven ++ [TTSEffect.invokeGroq, TTSEffect.removeFile 1])
    | TierOutcome.exn m =>
      speakFrom2
        (if groqIsRateLimited m then { st with groq_daily_limit_hit := true } else st)
        env (mkTemp1 outFileGiven ++ [TTSEffect.invokeGroq, TTSEffect.removeFile 1])

/-- The complete alphabet of effects any branch of `speak` can emit. -/
def allTTSEffects : List TTSEffect :=
  [TTSEffect.createTemp 1, TTSEffect.invokeGroq, TTSEffect.removeFile 1,
   TTSEffect.createTemp 2, TTSEffect.invokeEdge, TTSEffect.removeFile 2,
   TTSEffect.createTemp 3, TTSEffect.invokeEleven, TTSEffect.removeFile 3]

/-- A sample environment in which all three backends raise, none of the
messages being classified as a rate-limit/quota condition for its tier
except Edge's, whose exception message is of the very shape tier 1's
classifier treats as rate limiting. -/
def sampleFailEnv : TTSEnv :=
  ⟨TierOutcome.exn ("server disconnected"),
   TierOutcome.exn ("429 rate limit exceeded"),
   TierOutcome.exn ("boom")⟩

/-- A sample environment in which the Groq backend raises a daily-limit
exception and the lower tiers also fail. -/
def rateLimitEnv : TTSEnv :=
  ⟨TierOutcome.exn ("429 daily limit reached"),
   TierOutcome.exn ("edge down"),
   TierOutcome.exn ("el down")⟩

/-! ## The LED priority state machine -/

/-- The three LED ownership levels (pepper_interface.py line 82). -/
inductive LedState
  | idle
  | thinking
  | speaking
deriving DecidableEq

/-- The LED state fields guarded by `_led_lock` (pepper_interface.py
lines 82-83). -/
structure LedSt where
  led_state : LedState
  led_emotion_color : String
deriving DecidableEq

/-- Embedding of `_enter_led_thinking` (pepper_interface.py lines
232-236): claims thinking ownership; no eye write is issued by the call
itself (the pulse loop writes on its next tick). -/
def enter_led_thinking (s : LedSt) : LedSt × List String :=
  ({ s with led_state := LedState.thinking }, [])

/-- Embedding of `_exit_led_thinking` (pepper_interface.py lines
238-243): moves `thinking → idle` only when thinking was active, but then
issues `set_eye_color("blue")` unconditionally.  The second component is
the list of eye-color writes issued. -/
def exit_led_thinking (s : LedSt) : LedSt × List String :=
  (if s.led_state = LedState.thinking then { s with led_state := LedState.idle } else s,
   [("blue")])

/-- Embedding of `_enter_led_speaking` (pepper_interface.py lines
245-255): a no-op while thinking owns the LEDs, otherwise records the
speaking state with the emotion color and writes that color to the
eyes. -/
def enter_led_speaking (emotion_color : String) (s : LedSt) : LedSt × List String :=
  if s.led_state = LedState.thinking then (s, [])
  else ({ led_state := LedState.speaking, led_emotion_color := emotion_color }, [emotion_color])

/-- Embedding of `_exit_led_speaking` (pepper_interface.py lines
257-270): resets to idle and writes blue only when speaking was actually
owned. -/
def exit_led_speaking (s : LedSt) : LedSt × List String :=
  if s.led_state = LedState.speaking then
    ({ led_state := LedState.idle, led_emotion_color := ("blue") }, [("blue")])
  else (s, [])

/-! ## `play_audio_file`: two-phase delivery and the speech guard -/

/-- The environment of one `play_audio_file` call: whether paramiko is
importable, whether the SFTP transfer yields a remote path, whether
`_speech_lock.acquire(timeout=lock_timeout)` succeeds within the timeout,
and whether the `ALAudioPlayer` calls complete without raising. -/
structure PlaybackEnv where
  paramiko_available : Bool
  transfer_ok : Bool
  lock_available : Bool
  playback_ok : Bool
deriving DecidableEq

/-- Observable effects of one `play_audio_file` call, in program order. -/
inductive PlayEffect
  | transferFile
  | printSkip
  | cleanupRemote
  | enterSpeakingLed (color : String)
  | loadFile
  | startAnimLoop
  | playHardware
  | exitSpeakingLed
  | releaseLock
deriving DecidableEq

/-- Embedding of `play_audio_file` (pepper_interface.py lines 404-482).
Phase 1 (no lock): SFTP transfer; on failure return `False`.  Phase 2:
acquire the speech lock with a timeout; when the acquire fails, log the
skip, delete the already-transferred remote file and return `False`
without touching playback.  When acquired: enter the speaking LED state,
load the file, start the background animation loop, play (blocking), and
in `finally` exit the speaking LED state, delete the remote file and
release the lock.  A playback exception yields `False` after the same
`finally` effects. -/
def play_audio_file (env : PlaybackEnv) (emotion_color : String) : Bool × List PlayEffect :=
  if !env.paramiko_available then (false, [])
  else if !env.transfer_ok then (false, [PlayEffect.transferFile])
  else if !env.lock_available then
    (false, [PlayEffect.transferFile, PlayEffect.printSkip, PlayEffect.cleanupRemote])
  else
    (env.playback_ok,
     [PlayEffect.transferFile, PlayEffect.enterSpeakingLed emotion_color, PlayEffect.loadFile,
      PlayEffect.startAnimLoop, PlayEffect.playHardware, PlayEffect.exitSpeakingLed,
      PlayEffect.cleanupRemote, PlayEffect.releaseLock])

/-! ## The `_say` call into `speak_hq` (main.py lines 361-391)

Python binds keyword arguments before the callee body runs: a keyword
that matches no parameter raises `TypeError` at the call site. -/

/-- The parameter names of `PepperRobot.speak_hq` as defined in
pepper_interface.py lines 309-311. -/
def speak_hq_params : List String :=
  [("self"), ("text"), ("tts_handler"), ("emotion"), ("status_callback")]

/-- The keyword arguments `_say` passes to `pepper.speak_hq`
(main.py lines 371-377). -/
def say_speak_hq_kwargs : List String :=
  [("emotion"), ("status_callback"), ("gesture_callback")]

/-- Python call-binding rule for a callee without a `**kwargs`
collector: the call raises `TypeError` exactly when some passed keyword
matches no parameter name. -/
def call_raises_type_error (params kwargs : List String) : Bool :=
  kwargs.any (fun k => !(params.contains k))

/-- Effects of one `_say` call as observable from main.py. -/
inductive SayEffect
  | typeErrorRaised
  | fireGesture
  | enterSpeakingState
  | beginPlayback
  | exitSpeakingState
  | remoteCleanup
  | localPlayback
deriving DecidableEq

/-- Embedding of `_say` (main.py lines 361-391).  With the robot
connected it calls `pepper.speak_hq(text, tts, emotion=…,
status_callback=…, gesture_callback=…)`; per the call-binding rule this
raises before `speak_hq` runs when a keyword is unknown, and otherwise
`speak_hq` → `play_audio_file` runs with no gesture firing of its own
(the function as defined in pepper_interface.py has no gesture-callback
parameter or call).  Offline, `_say` fires the gesture callback itself
and plays locally. -/
def say_effects (connected : Bool) (gesture_attached : Bool) : List SayEffect :=
  if connected then
    if call_raises_type_error speak_hq_params say_speak_hq_kwargs then
      [SayEffect.typeErrorRaised]
    else
      [SayEffect.enterSpeakingState, SayEffect.beginPlayback,
       SayEffect.exitSpeakingState, SayEffect.remoteCleanup]
  else
    (if gesture_attached then [SayEffect.fireGesture] else []) ++ [SayEffect.localPlayback]

/-! ## The SSH transport: `_ensure_ssh` and `_transfer_to_robot` -/

/-- A paramiko client handle as relevant here: whether `get_transport()`
returns a transport, what `transport.is_active()` — a check of the
transport's local state, no packet is sent — reports, and whether the
underlying connection still actually works end to end. -/
structure SshHandle where
  transportPresent : Bool
  activeFlag : Bool
  trulyAlive : Bool
deriving DecidableEq

/-- The interface state relevant to the transport: the persistent
`_ssh_client` (pepper_interface.py line 87). -/
structure SshState where
  ssh_client : Option SshHandle
deriving DecidableEq

/-- Environment of one delivery: paramiko importability and whether a
fresh `client.connect(...)` would succeed now. -/
structure SshEnv where
  paramiko_available : Bool
  reconnect_ok : Bool
deriving DecidableEq

/-- Observable effects of the transport functions, in program order. -/
inductive SshEffect
  | localCheck
  | closeHandle
  | connectAttempt
  | sftpPut
deriving DecidableEq

/-- The health check performed by `_ensure_ssh` (pepper_interface.py
lines 354-359): `transport = self._ssh_client.get_transport() if
self._ssh_client else None; if transport and transport.is_active():
return True`.  This reads the handle's local active flag; it never
consults `trulyAlive`. -/
def probe_alive (client : Option SshHandle) : Bool :=
  match client with
  | none => false
  | some h => h.transportPresent && h.activeFlag

/-- Modelled from the spec: a liveness probe that is a real round-trip
no-op succeeds exactly when the connection actually works end to end. -/
def roundTripProbe (client : Option SshHandle) : Bool :=
  match client with
  | none => false
  | some h => h.trulyAlive

/-- Embedding of `_ensure_ssh` (pepper_interface.py lines 347-378): if
paramiko is missing, fail; if the local check passes, succeed with the
existing handle; otherwise close any existing client, attempt exactly one
reconnect, and on failure clear `_ssh_client` and fail. -/
def ensure_ssh (st : SshState) (env : SshEnv) : Bool × SshState × List SshEffect :=
  if !env.paramiko_available then (false, st, [])
  else if probe_alive st.ssh_client then (true, st, [SshEffect.localCheck])
  else
    let pre : List SshEffect :=
      match st.ssh_client with
      | some _ => [SshEffect.localCheck, SshEffect.closeHandle]
      | none => []
    if env.reconnect_ok then
      (true, ⟨some ⟨true, true, true⟩⟩, pre ++ [SshEffect.connectAttempt])
    else
      (false, ⟨none⟩, pre ++ [SshEffect.connectAttempt])

/-- Embedding of `_transfer_to_robot` (pepper_interface.py lines
380-402): fail when paramiko is missing; run `_ensure_ssh` and fail
without sending when it fails; otherwise attempt the SFTP put, returning
the remote path on success and `none` when the put raises. -/
def transfer_to_robot (st : SshState) (env : SshEnv) (sftp_ok : Bool) :
    Option String × SshState × List SshEffect :=
  if !env.paramiko_available then (none, st, [])
  else
    match ensure_ssh st env with
    | (false, st1, effs) => (none, st1, effs)
    | (true, st1, effs) =>
      if sftp_ok then (some ("/tmp/audio.wav"), st1, effs ++ [SshEffect.sftpPut])
      else (none, st1, effs ++ [SshEffect.sftpPut])

/-! # Theorems -/

/-! ## Helper lemmas about the fallback chain -/

theorem speakFrom3_trace (st : TTSState) (env : TTSEnv) (acc : List TTSEffect) :
    ∃ rest, (speakFrom3 st env acc).2.2 = acc ++ rest ∧
      rest ⊆ [TTSEffect.createTemp 3, TTSEffect.invokeEleven, TTSEffect.removeFile 3] := by
  unfold speakFrom3
  split
  · rcases henv : env.eleven with b | m <;> simp only [henv]
    · split
      · exact ⟨[TTSEffect.createTemp 3, TTSEffect.invokeEleven], rfl, by decide⟩
      · exact ⟨[TTSEffect.createTemp 3, TTSEffect.invokeEleven, TTSEffect.removeFile 3],
          rfl, by decide⟩
    · exact ⟨[TTSEffect.createTemp 3, TTSEffect.invokeEleven, TTSEffect.removeFile 3],
        rfl, by decide⟩
  · exact ⟨[], by simp, by decide⟩

theorem speakFrom2_trace (st : TTSState) (env : TTSEnv) (acc : List TTSEffect) :
    ∃ rest, (speakFrom2 st env acc).2.2 = acc ++ rest ∧
      TTSEffect.invokeEdge ∈ rest ∧
      rest ⊆ [TTSEffect.createTemp 2, TTSEffect.invokeEdge, TTSEffect.removeFile 2,
              TTSEffect.createTemp 3, TTSEffect.invokeEleven, TTSEffect.removeFile 3] := by
  unfold speakFrom2
  rcases henv : env.edge with b | m <;> simp only [henv]
  · split
    · exact ⟨[TTSEffect.createTemp 2, TTSEffect.invokeEdge], rfl, by decide, by decide⟩
    · obtain ⟨r3, h3, hsub⟩ := speakFrom3_trace st env
        (acc ++ [TTSEffect.createTemp 2, TTSEffect.invokeEdge, TTSEffect.removeFile 2])
      refine ⟨[TTSEffect.createTemp 2, TTSEffect.invokeEdge, TTSEffect.removeFile 2] ++ r3,
        ?_, by simp, ?_⟩
      · rw [h3, List.append_assoc]
      · exact List.append_subset.mpr ⟨by decide, hsub.trans (by decide)⟩
  · obtain ⟨r3, h3, hsub⟩ := speakFrom3_trace st env
      (acc ++ [TTSEffect.createTemp 2, TTSEffect.invokeEdge, TTSEffect.removeFile 2])
    refine ⟨[TTSEffect.createTemp 2, TTSEffect.invokeEdge, TTSEffect.removeFile 2] ++ r3,
      ?_, by simp, ?_⟩
    · rw [h3, List.append_assoc]
    · exact List.append_subset.mpr ⟨by decide, hsub.trans (by decide)⟩

theorem speakFrom3_state (st : TTSState) (env : TTSEnv) (acc : List TTSEffect) :
    (speakFrom3 st env acc).2.1 = st ∨
    (speakFrom3 st env acc).2.1 = { st with elevenlabs_daily_limit_hit := true } := by
  unfold speakFrom3
  split
  · rcases henv : env.eleven with b | m <;> simp only [henv]
    · split
      · exact Or.inl rfl
      · exact Or.inl rfl
    · show (if elevenIsLimited m then _ else st) = st ∨ _
      split
      · exact Or.inr rfl
      · exact Or.inl rfl
  · exact Or.inl rfl

theorem speakFrom2_state (st : TTSState) (env : TTSEnv) (acc : List TTSEffect) :
    (speakFrom2 st env acc).2.1 = st ∨
    (speakFrom2 st env acc).2.1 = { st with elevenlabs_daily_limit_hit := true } := by
  unfold speakFrom2
  rcases henv : env.edge with b | m <;> simp only [henv]
  · split
    · exact Or.inl rfl
    · exact speakFrom3_state st env _
  · exact speakFrom3_state st env _

theorem speakFrom2_groq_flag (st : TTSState) (env : TTSEnv) (acc : List TTSEffect) :
    (speakFrom2 st env acc).2.1.groq_daily_limit_hit = st.groq_daily_limit_hit := by
  rcases speakFrom2_state st env acc with h | h <;> rw [h]

theorem speakFrom2_el_flag_mono (st : TTSState) (env : TTSEnv) (acc : List TTSEffect)
    (h : st.elevenlabs_daily_limit_hit = true) :
    (speakFrom2 st env acc).2.1.elevenlabs_daily_limit_hit = true := by
  rcases speakFrom2_state st env acc with h2 | h2
  · rw [h2]
    exact h
  · rw [h2]

theorem speakFrom3_blocked (st : TTSState) (env : TTSEnv) (acc : List TTSEffect)
    (h : st.elevenlabs_daily_limit_hit = true) :
    speakFrom3 st env acc = (none, st, acc) := by
  unfold speakFrom3
  simp [h]

theorem speakFrom2_no_invokeEleven (st : TTSState) (env : TTSEnv) (acc : List TTSEffect)
    (h : st.elevenlabs_daily_limit_hit = true)
    (hacc : TTSEffect.invokeEleven ∉ acc) :
    TTSEffect.invokeEleven ∉ (speakFrom2 st env acc).2.2 := by
  unfold speakFrom2
  rcases henv : env.edge with b | m <;> simp only [henv]
  · split
    · simp [hacc]
    · rw [speakFrom3_blocked _ _ _ h]
      simp [hacc]
  · rw [speakFrom3_blocked _ _ _ h]
    simp [hacc]

theorem speak_trace_sub (st : TTSState) (env : TTSEnv) (g : Bool) :
    (speak st env g).2.2 ⊆ allTTSEffects := by
  unfold speak
  split
  · obtain ⟨r, hr, _, hsub⟩ := speakFrom2_trace st env []
    rw [hr, List.nil_append]
    exact hsub.trans (by decide)
  · rcases henv : env.groq with b | m <;> simp only [henv]
    · split
      · show mkTemp1 g ++ [TTSEffect.invokeGroq] ⊆ allTTSEffects
        cases g <;> decide
      · obtain ⟨r, hr, _, hsub⟩ := speakFrom2_trace st env
          (mkTemp1 g ++ [TTSEffect.invokeGroq, TTSEffect.removeFile 1])
        rw [hr]
        exact List.append_subset.mpr ⟨by cases g <;> decide, hsub.trans (by decide)⟩
    · obtain ⟨r, hr, _, hsub⟩ := speakFrom2_trace
        (if groqIsRateLimited m then { st with groq_daily_limit_hit := true } else st) env
        (mkTemp1 g ++ [TTSEffect.invokeGroq, TTSEffect.removeFile 1])
      rw [hr]
      exact List.append_subset.mpr ⟨by cases g <;> decide, hsub.trans (by decide)⟩

theorem speak_no_invokeGroq (st : TTSState) (env : TTSEnv) (g : Bool)
    (h : st.groq_daily_limit_hit = true) :
    TTSEffect.invokeGroq ∉ (speak st env g).2.2 := by
  unfold speak
  rw [if_pos h]
  intro hmem
  obtain ⟨r, hr, _, hsub⟩ := speakFrom2_trace st env []
  rw [hr, List.nil_append] at hmem
  exact absurd (hsub hmem) (by decide)

theorem speak_no_invokeEleven (st : TTSState) (env : TTSEnv) (g : Bool)
    (h : st.elevenlabs_daily_limit_hit = true) :
    TTSEffect.invokeEleven ∉ (speak st env g).2.2 := by
  unfold speak
  split
  · exact speakFrom2_no_invokeEleven st env [] h (by simp)
  · rcases henv : env.groq with b | m <;> simp only [henv]
    · split
      · show TTSEffect.invokeEleven ∉ mkTemp1 g ++ [TTSEffect.invokeGroq]
        cases g <;> decide
      · exact speakFrom2_no_invokeEleven st env _ h (by cases g <;> decide)
    · refine speakFrom2_no_invokeEleven _ env _ ?_ (by cases g <;> decide)
      split
      · exact h
      · exact h

theorem speak_groq_flag_set (st : TTSState) (env : TTSEnv) (g : Bool) (m : String)
    (h0 : st.groq_daily_limit_hit = false) (henv : env.groq = TierOutcome.exn m)
    (hrl : groqIsRateLimited m = true) :
    (speak st env g).2.1.groq_daily_limit_hit = true := by
  unfold speak
  rw [if_neg (by simp [h0]), henv]
  simp only [hrl, if_pos]
  rw [speakFrom2_groq_flag]

theorem speak_invokeEdge_of_exn (st : TTSState) (env : TTSEnv) (g : Bool) (m : String)
    (h0 : st.groq_daily_limit_hit = false) (henv : env.groq = TierOutcome.exn m) :
    TTSEffect.invokeEdge ∈ (speak st env g).2.2 := by
  unfold speak
  rw [if_neg (by simp [h0]), henv]
  obtain ⟨r, hr, hinv, _⟩ := speakFrom2_trace
    (if groqIsRateLimited m then { st with groq_daily_limit_hit := true } else st) env
    (mkTemp1 g ++ [TTSEffect.invokeGroq, TTSEffect.removeFile 1])
  rw [hr]
  exact List.mem_append.mpr (Or.inr hinv)

theorem pairing_append (acc blk : List TTSEffect)
    (hacc : ∀ i, TTSEffect.createTemp i ∈ acc → TTSEffect.removeFile i ∈ acc)
    (hblk : ∀ i, TTSEffect.createTemp i ∈ blk → TTSEffect.removeFile i ∈ blk) :
    ∀ i, TTSEffect.createTemp i ∈ acc ++ blk → TTSEffect.removeFile i ∈ acc ++ blk := by
  intro i hi
  rcases List.mem_append.mp hi with hi | hi
  · exact List.mem_append.mpr (Or.inl (hacc i hi))
  · exact List.mem_append.mpr (Or.inr (hblk i hi))

theorem pairing_block3 :
    ∀ i, TTSEffect.createTemp i
      ∈ [TTSEffect.createTemp 3, TTSEffect.invokeEleven, TTSEffect.removeFile 3] →
      TTSEffect.removeFile i
      ∈ [TTSEffect.createTemp 3, TTSEffect.invokeEleven, TTSEffect.removeFile 3] := by
  intro i hi
  have h3 : i = 3 := by simpa using hi
  subst h3
  simp

theorem speakFrom3_pairing (st : TTSState) (env : TTSEnv) (acc : List TTSEffect)
    (hacc : ∀ i, TTSEffect.createTemp i ∈ acc → TTSEffect.removeFile i ∈ acc)
    (hres : (speakFrom3 st env acc).1 = none) :
    ∀ i, TTSEffect.createTemp i ∈ (speakFrom3 st env acc).2.2 →
      TTSEffect.removeFile i ∈ (speakFrom3 st env acc).2.2 := by
  cases hg : (st.elevenlabs_enabled && !st.elevenlabs_daily_limit_hit) with
  | false =>
    simp only [speakFrom3, hg, Bool.false_eq_true, if_false]
    exact hacc
  | true =>
    rcases henv : env.eleven with b | m
    · cases hv : valid_audio (some b) with
      | false =>
        simp only [speakFrom3, hg, henv, hv, Bool.false_eq_true, if_false, if_true]
        exact pairing_append acc _ hacc pairing_block3
      | true =>
        rw [speakFrom3] at hres
        simp [hg, henv, hv] at hres
    · simp only [speakFrom3, hg, henv, if_true]
      exact pairing_append acc _ hacc pairing_block3

theorem pairing_block2 :
    ∀ i, TTSEffect.createTemp i
      ∈ [TTSEffect.createTemp 2, TTSEffect.invokeEdge, TTSEffect.removeFile 2] →
      TTSEffect.removeFile i
      ∈ [TTSEffect.createTemp 2, TTSEffect.invokeEdge, TTSEffect.removeFile 2] := by
  intro i hi
  have h2 : i = 2 := by simpa using hi
  subst h2
  simp

theorem speakFrom2_pairing (st : TTSState) (env : TTSEnv) (acc : List TTSEffect)
    (hacc : ∀ i, TTSEffect.createTemp i ∈ acc → TTSEffect.removeFile i ∈ acc)
    (hres : (speakFrom2 st env acc).1 = none) :
    ∀ i, TTSEffect.createTemp i ∈ (speakFrom2 st env acc).2.2 →
      TTSEffect.removeFile i ∈ (speakFrom2 st env acc).2.2 := by
  have hacc2 := pairing_append acc
    [TTSEffect.createTemp 2, TTSEffect.invokeEdge, TTSEffect.removeFile 2] hacc pairing_block2
  rcases henv : env.edge with b | m
  · cases hv : valid_audio (some b) with
    | false =>
      simp only [speakFrom2, henv, hv, Bool.false_eq_true, if_false]
      refine speakFrom3_pairing st env _ hacc2 ?_
      rw [speakFrom2, henv] at hres
      simpa [hv] using hres
    | true =>
      rw [speakFrom2, henv] at hres
      simp [hv] at hres
  · simp only [speakFrom2, henv]
    refine speakFrom3_pairing st env _ hacc2 ?_
    rw [speakFrom2, henv] at hres
    exact hres

theorem mkTemp1_acc_pairing (g : Bool) :
    ∀ i, TTSEffect.createTemp i
      ∈ mkTemp1 g ++ [TTSEffect.invokeGroq, TTSEffect.removeFile 1] →
      TTSEffect.removeFile i
      ∈ mkTemp1 g ++ [TTSEffect.invokeGroq, TTSEffect.removeFile 1] := by
  intro i hi
  have h1 : i = 1 := by
    cases g
    · simpa [mkTemp1] using hi
    · simp [mkTemp1] at hi
  subst h1
  cases g <;> simp [mkTemp1]

theorem speak_pairing (st : TTSState) (env : TTSEnv) (g : Bool)
    (hres : (speak st env g).1 = none) :
    ∀ i, TTSEffect.createTemp i ∈ (speak st env g).2.2 →
      TTSEffect.removeFile i ∈ (speak st env g).2.2 := by
  cases hflag : st.groq_daily_limit_hit with
  | true =>
    simp only [speak, hflag, if_true]
    refine speakFrom2_pairing st env [] (by simp) ?_
    rw [speak] at hres
    simpa [hflag] using hres
  | false =>
    rcases henv : env.groq with b | m
    · cases hv : valid_audio (some b) with
      | true =>
        rw [speak] at hres
        simp [hflag, henv, hv] at hres
      | false =>
        simp only [speak, hflag, henv, hv, Bool.false_eq_true, if_false]
        refine speakFrom2_pairing st env _ (mkTemp1_acc_pairing g) ?_
        rw [speak] at hres
        simpa [hflag, henv, hv] using hres
    · simp only [speak, hflag, henv, Bool.false_eq_true, if_false]
      refine speakFrom2_pairing _ env _ (mkTemp1_acc_pairing g) ?_
      rw [speak] at hres
      simpa [hflag, henv] using hres

theorem speakFrom2_invokeEleven_split (st : TTSState) (env : TTSEnv) (acc : List TTSEffect)
    (hacc : TTSEffect.invokeEleven ∉ acc)
    (h : TTSEffect.invokeEleven ∈ (speakFrom2 st env acc).2.2) :
    ∃ l r, (speakFrom2 st env acc).2.2 = l ++ r ∧
      TTSEffect.removeFile 2 ∈ l ∧ TTSEffect.invokeEleven ∈ r := by
  rcases henv : env.edge with b | m
  · cases hv : valid_audio (some b) with
    | true =>
      rw [speakFrom2, henv] at h
      simp [hv] at h
      exact absurd h hacc
    | false =>
      simp only [speakFrom2, henv, hv, Bool.false_eq_true, if_false] at h ⊢
      obtain ⟨r3, hr3, hsub⟩ := speakFrom3_trace st env
        (acc ++ [TTSEffect.createTemp 2, TTSEffect.invokeEdge, TTSEffect.removeFile 2])
      rw [hr3] at h ⊢
      refine ⟨_, r3, rfl, by simp, ?_⟩
      rcases List.mem_append.mp h with h | h
      · rcases List.mem_append.mp h with h | h
        · exact absurd h hacc
        · simp at h
      · exact h
  · simp only [speakFrom2, henv] at h ⊢
    obtain ⟨r3, hr3, hsub⟩ := speakFrom3_trace st env
      (acc ++ [TTSEffect.createTemp 2, TTSEffect.invokeEdge, TTSEffect.removeFile 2])
    rw [hr3] at h ⊢
    refine ⟨_, r3, rfl, by simp, ?_⟩
    rcases List.mem_append.mp h with h | h
    · rcases List.mem_append.mp h with h | h
      · exact absurd h hacc
      · simp at h
    · exact h

theorem speak_some1_or_invokeEdge (st : TTSState) (env : TTSEnv) (g : Bool) :
    (speak st env g).1 = some 1 ∨ TTSEffect.invokeEdge ∈ (speak st env g).2.2 := by
  cases hflag : st.groq_daily_limit_hit with
  | true =>
    right
    simp only [speak, hflag, if_true]
    obtain ⟨r, hr, hinv, _⟩ := speakFrom2_trace st env []
    rw [hr]
    exact List.mem_append.mpr (Or.inr hinv)
  | false =>
    rcases henv : env.groq with b | m
    · cases hv : valid_audio (some b) with
      | true =>
        left
        simp [speak, hflag, henv, hv]
      | false =>
        right
        simp only [speak, hflag, henv, hv, Bool.false_eq_true, if_false]
        obtain ⟨r, hr, hinv, _⟩ := speakFrom2_trace st env
          (mkTemp1 g ++ [TTSEffect.invokeGroq, TTSEffect.removeFile 1])
        rw [hr]
        exact List.mem_append.mpr (Or.inr hinv)
    · right
      exact speak_invokeEdge_of_exn st env g m hflag henv

theorem speak_tier1_cleanup_split (st : TTSState) (env : TTSEnv) (g : Bool)
    (hct : TTSEffect.createTemp 1 ∈ (speak st env g).2.2)
    (hinv : TTSEffect.invokeEdge ∈ (speak st env g).2.2) :
    ∃ l r, (speak st env g).2.2 = l ++ r ∧
      TTSEffect.removeFile 1 ∈ l ∧ TTSEffect.invokeEdge ∈ r := by
  cases hflag : st.groq_daily_limit_hit with
  | true =>
    exfalso
    rw [speak] at hct
    simp only [hflag, if_true] at hct
    obtain ⟨r, hr, _, hsub⟩ := speakFrom2_trace st env []
    rw [hr, List.nil_append] at hct
    exact absurd (hsub hct) (by decide)
  | false =>
    rcases henv : env.groq with b | m
    · cases hv : valid_audio (some b) with
      | true =>
        exfalso
        rw [speak] at hinv
        simp only [hflag, henv, hv, Bool.false_eq_true, if_false, if_true] at hinv
        revert hinv
        show TTSEffect.invokeEdge ∉ mkTemp1 g ++ [TTSEffect.invokeGroq]
        cases g <;> decide
      | false =>
        simp only [speak, hflag, henv, hv, Bool.false_eq_true, if_false]
        obtain ⟨r, hr, hinvE, _⟩ := speakFrom2_trace st env
          (mkTemp1 g ++ [TTSEffect.invokeGroq, TTSEffect.removeFile 1])
        rw [hr]
        exact ⟨_, r, rfl, by cases g <;> simp [mkTemp1], hinvE⟩
    · simp only [speak, hflag, henv, Bool.false_eq_true, if_false]
      obtain ⟨r, hr, hinvE, _⟩ := speakFrom2_trace
        (if groqIsRateLimited m then { st with groq_daily_limit_hit := true } else st) env
        (mkTemp1 g ++ [TTSEffect.invokeGroq, TTSEffect.removeFile 1])
      rw [hr]
      exact ⟨_, r, rfl, by cases g <;> simp [mkTemp1], hinvE⟩

theorem speak_tier2_cleanup_split (st : TTSState) (env : TTSEnv) (g : Bool)
    (h : TTSEffect.invokeEleven ∈ (speak st env g).2.2) :
    ∃ l r, (speak st env g).2.2 = l ++ r ∧
      TTSEffect.removeFile 2 ∈ l ∧ TTSEffect.invokeEleven ∈ r := by
  cases hflag : st.groq_daily_limit_hit with
  | true =>
    simp only [speak, hflag, if_true] at h ⊢
    exact speakFrom2_invokeEleven_split st env [] (by simp) h
  | false =>
    rcases henv : env.groq with b | m
    · cases hv : valid_audio (some b) with
      | true =>
        exfalso
        rw [speak] at h
        simp only [hflag, henv, hv, Bool.false_eq_true, if_false, if_true] at h
        revert h
        show TTSEffect.invokeEleven ∉ mkTemp1 g ++ [TTSEffect.invokeGroq]
        cases g <;> decide
      | false =>
        simp only [speak, hflag, henv, hv, Bool.false_eq_true, if_false] at h ⊢
        exact speakFrom2_invokeEleven_split st env _ (by cases g <;> decide) h
    · simp only [speak, hflag, henv, Bool.false_eq_true, if_false] at h ⊢
      exact speakFrom2_invokeEleven_split _ env _ (by cases g <;> decide) h

/-- C3, amended: a tier that has a rateLimited flag (Groq, tier 1, and
ElevenLabs, tier 3) is never invoked while its flag is set; a
rate-limit-classified Groq failure sets the Groq flag during the call,
the lower tiers are still attempted in the same call, and every
subsequent call skips Groq; and whenever tier 1 does not succeed, tier 2
(Edge, which has no flag) is attempted. -/
theorem C3_rate_limit_flags :
    (∀ (st : TTSState) (env : TTSEnv) (g : Bool), st.groq_daily_limit_hit = true →
       TTSEffect.invokeGroq ∉ (speak st env g).2.2)
  ∧ (∀ (st : TTSState) (env : TTSEnv) (g : Bool), st.elevenlabs_daily_limit_hit = true →
       TTSEffect.invokeEleven ∉ (speak st env g).2.2)
  ∧ (∀ (st : TTSState) (env : TTSEnv) (g : Bool) (m : String),
       st.groq_daily_limit_hit = false → env.groq = TierOutcome.exn m →
       groqIsRateLimited m = true →
         (speak st env g).2.1.groq_daily_limit_hit = true
       ∧ TTSEffect.invokeEdge ∈ (speak st env g).2.2
       ∧ ∀ (env2 : TTSEnv) (g2 : Bool),
           TTSEffect.invokeGroq ∉ (speak (speak st env g).2.1 env2 g2).2.2)
  ∧ (∀ (st : TTSState) (env : TTSEnv) (g : Bool),
       (speak st env g).1 = some 1 ∨ TTSEffect.invokeEdge ∈ (speak st env g).2.2) := by
  refine ⟨?_, ?_, ?_, ?_⟩
  · intro st env g h
    exact speak_no_invokeGroq st env g h
  · intro st env g h
    exact speak_no_invokeEleven st env g h
  · intro st env g m h0 henv hrl
    refine ⟨speak_groq_flag_set st env g m h0 henv hrl,
            speak_invokeEdge_of_exn st env g m h0 henv, ?_⟩
    intro env2 g2
    exact speak_no_invokeGroq _ env2 g2 (speak_groq_flag_set st env g m h0 henv hrl)
  · intro st env g
    exact speak_some1_or_invokeEdge st env g

/-- C3 counterexample: Edge (tier 2) raises an exception whose message is
exactly of the rate-limit class ("429 rate limit exceeded"), yet no flag
is set for it — the handler state is unchanged — and the very next call
invokes the Edge backend again, contradicting the claim that a tier
returning a RateLimited error has its flag set and is skipped by
subsequent calls in the window. -/
theorem C3_counterexample :
    groqIsRateLimited ("429 rate limit exceeded") = true
  ∧ (speak ⟨false, true, false⟩ sampleFailEnv false).2.1 = ⟨false, true, false⟩
  ∧ TTSEffect.invokeEdge
      ∈ (speak (speak ⟨false, true, false⟩ sampleFailEnv false).2.1 sampleFailEnv false).2.2 := by
  decide

theorem C3_witness :
    TTSEffect.invokeGroq ∉ (speak ⟨true, true, false⟩ sampleFailEnv false).2.2
  ∧ TTSEffect.invokeEleven ∉ (speak ⟨false, true, true⟩ sampleFailEnv false).2.2
  ∧ (speak ⟨false, true, false⟩ rateLimitEnv false).2.1.groq_daily_limit_hit = true
  ∧ TTSEffect.invokeEdge ∈ (speak ⟨false, true, false⟩ rateLimitEnv false).2.2
  ∧ TTSEffect.invokeGroq
      ∉ (speak (speak ⟨false, true, false⟩ rateLimitEnv false).2.1 sampleFailEnv true).2.2 :=
  ⟨C3_rate_limit_flags.1 _ _ _ rfl,
   C3_rate_limit_flags.2.1 _ _ _ rfl,
   (C3_rate_limit_flags.2.2.1 _ _ _ ("429 daily limit reached") rfl rfl (by decide)).1,
   (C3_rate_limit_flags.2.2.1 _ _ _ ("429 daily limit reached") rfl rfl (by decide)).2.1,
   (C3_rate_limit_flags.2.2.1 _ _ _ ("429 daily limit reached") rfl rfl (by decide)).2.2
     sampleFailEnv true⟩

/-- C4, amended: a rate-limit-classified Groq failure sets that tier's
flag, but no reset is ever scheduled — no branch of the selector emits a
scheduling effect; the flags persist until the manual
`reset_daily_limits` call, which clears both (idempotently) and exists
for operator-triggered recovery. -/
theorem C4_no_scheduled_reset :
    (∀ (st : TTSState) (env : TTSEnv) (g : Bool),
       TTSEffect.scheduleReset ∉ (speak st env g).2.2)
  ∧ (∀ (st : TTSState) (env : TTSEnv) (g : Bool) (m : String),
       st.groq_daily_limit_hit = false → env.groq = TierOutcome.exn m →
       groqIsRateLimited m = true →
       (speak st env g).2.1.groq_daily_limit_hit = true)
  ∧ (∀ st : TTSState, reset_daily_limits st = ⟨false, st.elevenlabs_enabled, false⟩)
  ∧ (∀ st : TTSState,
       reset_daily_limits (reset_daily_limits st) = reset_daily_limits st) := by
  refine ⟨?_, ?_, ?_, ?_⟩
  · intro st env g hmem
    exact absurd (speak_trace_sub st env g hmem) (by decide)
  · intro st env g m h0 henv hrl
    exact speak_groq_flag_set st env g m h0 henv hrl
  · intro st
    rfl
  · intro st
    rfl

/-- C4 counterexample: a Groq daily-limit error sets the flag, but the
call's effect trace contains no scheduling of a reset — nothing will
clear the flag at a wall-clock boundary. -/
theorem C4_counterexample :
    (speak ⟨false, true, false⟩ rateLimitEnv false).2.1.groq_daily_limit_hit = true
  ∧ TTSEffect.scheduleReset ∉ (speak ⟨false, true, false⟩ rateLimitEnv false).2.2 := by
  decide

theorem C4_witness :
    TTSEffect.scheduleReset ∉ (speak ⟨false, true, false⟩ sampleFailEnv false).2.2
  ∧ (speak ⟨false, true, false⟩ rateLimitEnv true).2.1.groq_daily_limit_hit = true
  ∧ reset_daily_limits ⟨true, true, true⟩ = ⟨false, true, false⟩ :=
  ⟨C4_no_scheduled_reset.1 _ _ _,
   C4_no_scheduled_reset.2.1 _ _ _ ("429 daily limit reached") rfl rfl (by decide),
   C4_no_scheduled_reset.2.2.1 ⟨true, true, true⟩⟩

/-- C9: whenever `speak` returns total failure, every temp file created
during the call has a matching removal in the trace; moreover the tier-1
temp file is removed before tier 2 is invoked, and the tier-2 temp file
is removed before tier 3 is invoked. -/
theorem C9_temp_cleanup :
    (∀ (st : TTSState) (env : TTSEnv) (g : Bool), (speak st env g).1 = none →
       ∀ i, TTSEffect.createTemp i ∈ (speak st env g).2.2 →
         TTSEffect.removeFile i ∈ (speak st env g).2.2)
  ∧ (∀ (st : TTSState) (env : TTSEnv) (g : Bool),
       TTSEffect.createTemp 1 ∈ (speak st env g).2.2 →
       TTSEffect.invokeEdge ∈ (speak st env g).2.2 →
       ∃ l r, (speak st env g).2.2 = l ++ r ∧
         TTSEffect.removeFile 1 ∈ l ∧ TTSEffect.invokeEdge ∈ r)
  ∧ (∀ (st : TTSState) (env : TTSEnv) (g : Bool),
       TTSEffect.invokeEleven ∈ (speak st env g).2.2 →
       ∃ l r, (speak st env g).2.2 = l ++ r ∧
         TTSEffect.removeFile 2 ∈ l ∧ TTSEffect.invokeEleven ∈ r) :=
  ⟨fun st env g h => speak_pairing st env g h,
   fun st env g h1 h2 => speak_tier1_cleanup_split st env g h1 h2,
   fun st env g h => speak_tier2_cleanup_split st env g h⟩

theorem C9_witness :
    TTSEffect.removeFile 1 ∈ (speak ⟨false, true, false⟩ sampleFailEnv false).2.2
  ∧ (∃ l r, (speak ⟨false, true, false⟩ sampleFailEnv false).2.2 = l ++ r ∧
       TTSEffect.removeFile 1 ∈ l ∧ TTSEffect.invokeEdge ∈ r)
  ∧ (∃ l r, (speak ⟨false, true, false⟩ sampleFailEnv false).2.2 = l ++ r ∧
       TTSEffect.removeFile 2 ∈ l ∧ TTSEffect.invokeEleven ∈ r) :=
  ⟨C9_temp_cleanup.1 _ _ _ (by decide) 1 (by decide),
   C9_temp_cleanup.2.1 _ _ _ (by decide) (by decide),
   C9_temp_cleanup.2.2 _ _ _ (by decide)⟩

/-- C1, amended: the validity check is size-only — it accepts exactly the
files that exist and have positive size; in particular a buffer of
correct size whose header bytes match neither the WAV nor the MP3
signature is still accepted, while an empty or missing file is
rejected. -/
theorem C1_valid_audio_size_only :
    (∀ b : Bytes, 0 < b.length → valid_audio (some b) = true)
  ∧ (∀ b : Bytes, hasRiffWaveHeader b = false → hasMp3Signature b = false →
       0 < b.length → valid_audio (some b) = true)
  ∧ valid_audio (some []) = false
  ∧ valid_audio none = false := by
  refine ⟨?_, ?_, rfl, rfl⟩
  · intro b hb
    simpa [valid_audio] using hb
  · intro b _ _ hb
    simpa [valid_audio] using hb

/-- C1 counterexample: a 64-byte buffer of zeros has correct (non-zero)
size but carries neither a RIFF/WAVE header nor an MP3 signature, and the
code's validity check accepts it — the claim says it must be rejected. -/
theorem C1_counterexample :
    valid_audio (some (List.replicate 64 0)) = true
  ∧ hasRiffWaveHeader (List.replicate 64 0) = false
  ∧ hasMp3Signature (List.replicate 64 0) = false := by
  decide

theorem C1_witness :
    valid_audio (some [1, 2, 3]) = true
  ∧ valid_audio (some (List.replicate 64 7)) = true :=
  ⟨C1_valid_audio_size_only.1 [1, 2, 3] (by decide),
   C1_valid_audio_size_only.2.1 (List.replicate 64 7) (by decide) (by decide) (by decide)⟩

/-- C2: evaluation of the code at the failing input.  `_say` passes the
keyword `gesture_callback` to `pepper.speak_hq`, whose parameter list has
no such name, so with the robot connected the call raises `TypeError`
before `speak_hq` runs: the gesture callback never fires and playback
never begins — the claimed enter-speaking → gesture → playback ordering
never happens in the HQ pipeline. -/
theorem C2_gesture_callback_type_error :
    call_raises_type_error speak_hq_params say_speak_hq_kwargs = true
  ∧ speak_hq_params.contains ("gesture_callback") = false
  ∧ speak_hq_params.contains ("emotion") = true
  ∧ speak_hq_params.contains ("status_callback") = true
  ∧ call_raises_type_error speak_hq_params [("emotion"), ("status_callback")] = false
  ∧ say_effects true true = [SayEffect.typeErrorRaised]
  ∧ SayEffect.fireGesture ∉ say_effects true true
  ∧ SayEffect.beginPlayback ∉ say_effects true true := by
  decide

/-- C5: evaluation of the code at the failing input.  With a configured
base rate of "+30%" and emotion "happy", `_speak_edge_async` passes the
map's "+15%" verbatim to `Communicate` — a delta of 15 from the voice
default — whereas additive semantics (the map's own comment and the
claim) require 30 + 15 = 45; the configured baseline is replaced, not
preserved. -/
theorem C5_edge_rate_replaced :
    (edgeResolveRateAndPitch ("+30%") (some ("happy"))).1 = ("+15%")
  ∧ parseRatePct ((edgeResolveRateAndPitch ("+30%") (some ("happy"))).1) = some 15
  ∧ edgeAdditiveRate ("+30%") (some ("happy")) = some 45
  ∧ parseRatePct ((edgeResolveRateAndPitch ("+30%") (some ("happy"))).1)
      ≠ edgeAdditiveRate ("+30%") (some ("happy"))
  ∧ edgeResolveRateAndPitch ("+30%") none = (("+30%"), ("+0Hz")) := by
  decide

/-- C6: when the transfer has succeeded but the speech lock cannot be
acquired within the timeout, `play_audio_file` drops the request: it
returns `False`, logs the skip, deletes the already-transferred remote
file, and never reaches hardware playback or the speaking LED state —
the request is dropped, not queued. -/
theorem C6_guard_timeout_drop :
    ∀ (env : PlaybackEnv) (c : String),
      env.paramiko_available = true → env.transfer_ok = true → env.lock_available = false →
      play_audio_file env c
        = (false, [PlayEffect.transferFile, PlayEffect.printSkip, PlayEffect.cleanupRemote])
      ∧ PlayEffect.playHardware ∉ (play_audio_file env c).2
      ∧ PlayEffect.enterSpeakingLed c ∉ (play_audio_file env c).2
      ∧ PlayEffect.cleanupRemote ∈ (play_audio_file env c).2
      ∧ (play_audio_file env c).1 = false := by
  intro env c h1 h2 h3
  simp [play_audio_file, h1, h2, h3]

theorem C6_witness :
    play_audio_file ⟨true, true, false, true⟩ ("blue")
      = (false, [PlayEffect.transferFile, PlayEffect.printSkip, PlayEffect.cleanupRemote])
  ∧ PlayEffect.playHardware ∉ (play_audio_file ⟨true, true, false, true⟩ ("blue")).2
  ∧ PlayEffect.enterSpeakingLed ("blue") ∉ (play_audio_file ⟨true, true, false, true⟩ ("blue")).2
  ∧ PlayEffect.cleanupRemote ∈ (play_audio_file ⟨true, true, false, true⟩ ("blue")).2
  ∧ (play_audio_file ⟨true, true, false, true⟩ ("blue")).1 = false :=
  C6_guard_timeout_drop ⟨true, true, false, true⟩ ("blue") rfl rfl rfl

/-- C7: for every color argument, entering the speaking LED state while
the state is `thinking` is a no-op — the state (including the stored
emotion color) is returned unchanged and no eye-color write is issued. -/
theorem C7_enter_speaking_noop_while_thinking :
    ∀ (c : String) (s : LedSt), s.led_state = LedState.thinking →
      enter_led_speaking c s = (s, []) := by
  intro c s h
  simp [enter_led_speaking, h]

theorem C7_witness :
    enter_led_speaking ("red") ⟨LedState.thinking, ("blue")⟩
      = (⟨LedState.thinking, ("blue")⟩, []) :=
  C7_enter_speaking_noop_while_thinking ("red") ⟨LedState.thinking, ("blue")⟩ rfl

/-- C10: calling `_exit_led_thinking` while the LED state is not
`thinking` leaves both state fields unchanged, yet still issues the
unconditional idle write `set_eye_color("blue")` — including over an
active speaking color. -/
theorem C10_exit_thinking_blue_write :
    ∀ s : LedSt, s.led_state ≠ LedState.thinking →
      exit_led_thinking s = (s, [("blue")]) := by
  intro s h
  simp [exit_led_thinking, h]

theorem C10_witness :
    exit_led_thinking ⟨LedState.speaking, ("yellow")⟩
      = (⟨LedState.speaking, ("yellow")⟩, [("blue")]) :=
  C10_exit_thinking_blue_write ⟨LedState.speaking, ("yellow")⟩ (by decide)

/-- C8 counterexample: a stale handle — transport present, local active
flag still set, but the connection actually dead (`trulyAlive = false`)
— passes `_ensure_ssh`'s health check, which closes and recreates
nothing: the probe reads only the local flag, while a real round-trip
no-op (the spec-modelled `roundTripProbe`) fails on this handle; the
probe's verdict is the same whether the connection is alive or dead. -/
theorem C8_counterexample :
    ensure_ssh ⟨some ⟨true, true, false⟩⟩ ⟨true, true⟩
      = (true, ⟨some ⟨true, true, false⟩⟩, [SshEffect.localCheck])
  ∧ roundTripProbe (some ⟨true, true, false⟩) = false
  ∧ SshEffect.connectAttempt ∉ (ensure_ssh ⟨some ⟨true, true, false⟩⟩ ⟨true, true⟩).2.2
  ∧ SshEffect.closeHandle ∉ (ensure_ssh ⟨some ⟨true, true, false⟩⟩ ⟨true, true⟩).2.2
  ∧ (ensure_ssh ⟨some ⟨true, true, true⟩⟩ ⟨true, true⟩).1
      = (ensure_ssh ⟨some ⟨true, true, false⟩⟩ ⟨true, true⟩).1 := by
  decide

/-- C8, amended: the pre-delivery health check reads the transport's
local active flag (not a round-trip); when that check passes the
existing handle is reused with no reconnect; when it fails the handle is
closed and exactly one reconnect is attempted; and if that reconnect
fails the delivery fails without sending the file. -/
theorem C8_local_probe_single_reconnect :
    (∀ (h : SshHandle) (env : SshEnv), env.paramiko_available = true →
       h.transportPresent = true → h.activeFlag = true →
       ensure_ssh ⟨some h⟩ env = (true, ⟨some h⟩, [SshEffect.localCheck]))
  ∧ (∀ (st : SshState) (env : SshEnv),
       ((ensure_ssh st env).2.2).count SshEffect.connectAttempt ≤ 1)
  ∧ (∀ (st : SshState) (env : SshEnv), env.paramiko_available = true →
       probe_alive st.ssh_client = false →
       ((ensure_ssh st env).2.2).count SshEffect.connectAttempt = 1)
  ∧ (∀ (st : SshState) (env : SshEnv) (sftp_ok : Bool), env.paramiko_available = true →
       env.reconnect_ok = false → probe_alive st.ssh_client = false →
         (ensure_ssh st env).1 = false
       ∧ (transfer_to_robot st env sftp_ok).1 = none
       ∧ SshEffect.sftpPut ∉ (transfer_to_robot st env sftp_ok).2.2) := by
  refine ⟨?_, ?_, ?_, ?_⟩
  · intro h env hp ht ha
    simp [ensure_ssh, probe_alive, hp, ht, ha]
  · intro st env
    cases hp : env.paramiko_available with
    | false => simp [ensure_ssh, hp]
    | true =>
      cases hprobe : probe_alive st.ssh_client with
      | true => simp [ensure_ssh, hp, hprobe]
      | false =>
        rcases hc : st.ssh_client with _ | h
        all_goals rw [hc] at hprobe
        all_goals cases hr : env.reconnect_ok
        all_goals simp [ensure_ssh, hp, hprobe, hc, hr]
  · intro st env hp hprobe
    rcases hc : st.ssh_client with _ | h
    all_goals rw [hc] at hprobe
    all_goals cases hr : env.reconnect_ok
    all_goals simp [ensure_ssh, hp, hprobe, hc, hr]
  · intro st env sftp_ok hp hr hprobe
    rcases hc : st.ssh_client with _ | h
    all_goals rw [hc] at hprobe
    all_goals simp [ensure_ssh, transfer_to_robot, hp, hprobe, hc, hr]

theorem C8_witness :
    ensure_ssh ⟨some ⟨true, true, false⟩⟩ ⟨true, false⟩
      = (true, ⟨some ⟨true, true, false⟩⟩, [SshEffect.localCheck])
  ∧ ((ensure_ssh ⟨none⟩ ⟨true, true⟩).2.2).count SshEffect.connectAttempt = 1
  ∧ ((transfer_to_robot ⟨some ⟨true, false, false⟩⟩ ⟨true, false⟩ true).1 = none
     ∧ SshEffect.sftpPut
         ∉ (transfer_to_robot ⟨some ⟨true, false, false⟩⟩ ⟨true, false⟩ true).2.2) :=
  ⟨C8_local_probe_single_reconnect.1 ⟨true, true, false⟩ ⟨true, false⟩ rfl rfl rfl,
   C8_local_probe_single_reconnect.2.2.1 ⟨none⟩ ⟨true, true⟩ rfl rfl,
   (C8_local_probe_single_reconnect.2.2.2 ⟨some ⟨true, false, false⟩⟩ ⟨true, false⟩ true
      rfl rfl rfl).2.1,
   (C8_local_probe_single_reconnect.2.2.2 ⟨some ⟨true, false, false⟩⟩ ⟨true, false⟩ true
      rfl rfl rfl).2.2⟩
